import Mathlib

/-!
Verification of the scene lifecycle, frame loop, controller manager, bounds
clamp and router of the Immersive-Web-VR-AR capstone project.

The JavaScript sources `src/scripts/scenes/xr-scene.js` and
`src/scripts/router.js` are embedded shallowly below: each JS method becomes a
Lean function on an explicit state record, external collaborators (the input
integrator, the XR session, the clock) become an environment record, and the
side effects a frame callback performs (animate hook, input sampling, render
calls, frame requests, ...) are recorded in an effect trace.
Positions and bounds use exact rationals.
-/

namespace ImmersiveWeb

/-- A three-component vector, as `THREE.Vector3`. -/
structure Vec3 where
  x : ℚ
  y : ℚ
  z : ℚ
deriving DecidableEq, Repr

/-- The bounds record set up by the `XrScene` constructor: corners `one`
(upper) and `two` (lower). -/
structure Bounds where
  one : Vec3
  two : Vec3
deriving DecidableEq, Repr

/-- One axis of `_testBounds` (xr-scene.js lines 317-321): clip from above at
`hi`, otherwise from below at `lo`. -/
def clampAxis (p hi lo : ℚ) : ℚ :=
  if p > hi then hi else if p < lo then lo else p

/-- `XrScene._testBounds` (xr-scene.js lines 314-334): clamp each component of
`position` against `bounds.one` (above) and `bounds.two` (below). The JS
mutates `position` in place; here the updated vector is returned. -/
def testBounds (b : Bounds) (p : Vec3) : Vec3 :=
  { x := clampAxis p.x b.one.x b.two.x
    y := clampAxis p.y b.one.y b.two.y
    z := clampAxis p.z b.one.z b.two.z }

/-- `XrScene._setBounds` (xr-scene.js lines 306-309): copy the two argument
vectors into the bounds record, verbatim, with no validation. -/
def setBounds (_b : Bounds) (bound1 bound2 : Vec3) : Bounds :=
  { one := bound1, two := bound2 }

/-- The bounds installed by the `XrScene` constructor (xr-scene.js
lines 69-72). -/
def initialBounds : Bounds :=
  { one := { x := 100, y := 100, z := 100 }
    two := { x := -100, y := -100, z := -100 } }

/-- Componentwise order on vectors. -/
def vecLe (a b : Vec3) : Prop :=
  a.x ≤ b.x ∧ a.y ≤ b.y ∧ a.z ≤ b.z

instance (a b : Vec3) : Decidable (vecLe a b) := by
  unfold vecLe; infer_instance

/-- The Bounds Box invariant: `one` (upper) dominates `two` (lower) on every
axis. -/
def boundsValid (b : Bounds) : Prop := vecLe b.two b.one

instance (b : Bounds) : Decidable (boundsValid b) := by
  unfold boundsValid; infer_instance

/-- A position lies inside the box. -/
def inBounds (b : Bounds) (p : Vec3) : Prop :=
  vecLe b.two p ∧ vecLe p b.one

instance (b : Bounds) (p : Vec3) : Decidable (inBounds b p) := by
  unfold inBounds; infer_instance

/-! ## Controller manager and scene state -/

/-- One controller record: a mesh and an optional laser (pointer-ray) mesh.
Scene-graph objects are identified by natural numbers. `_removeController`
dereferences `controller.mesh.geometry` unconditionally, so a record reaching
it always carries a mesh; the laser is guarded and stays optional. -/
structure Controller where
  mesh : Nat
  laser : Option Nat
deriving DecidableEq, Repr

/-- The mutable fields of an `XrScene` instance that the lifecycle methods
touch, plus the position vector of the conventional-controls rig
(`controls.getObject().position`), which `_animationCallback` clamps. -/
structure XrSceneState where
  isActive : Bool
  pause : Bool
  position : Vec3
  controlsPos : Vec3
  bounds : Bounds
  frame : Option Nat
  controllers : List Controller
  sceneChildren : List Nat
  rendererAutoClear : Bool
  sceneMatrixAutoUpdate : Bool
deriving DecidableEq, Repr

/-- `XrScene._removeController(index)` (xr-scene.js lines 107-121): detach the
controller's mesh and laser from the scene graph, dispose their resources, and
splice the record out of the `controllers` array. The JS is only ever invoked
with `index < controllers.length`. -/
def removeController (s : XrSceneState) (index : Nat) : XrSceneState :=
  let children :=
    match s.controllers[index]? with
    | some c =>
        let g1 := s.sceneChildren.erase c.mesh
        match c.laser with
        | some l => g1.erase l
        | none => g1
    | none => s.sceneChildren
  { s with sceneChildren := children
           controllers := s.controllers.eraseIdx index }

/-- The loop of `XrScene._removeAllControllers` (xr-scene.js lines 126-130):
`for (let i = 0; i < this.controllers.length; i++) this._removeController(i)`.
The length is re-read from the shrinking array on every iteration while `i`
keeps increasing. -/
def removeAllLoop (s : XrSceneState) (i : Nat) : XrSceneState :=
  if i < s.controllers.length then
    removeAllLoop (removeController s i) (i + 1)
  else s
termination_by s.controllers.length - i
decreasing_by
  simp only [removeController, List.length_eraseIdx]
  split
  · omega
  · omega

/-- `XrScene._removeAllControllers` (xr-scene.js lines 126-130). -/
def removeAllControllers (s : XrSceneState) : XrSceneState :=
  removeAllLoop s 0

/-- A concrete scene state holding two controller records (meshes 1 and 3,
lasers 2 and 4), all four objects attached to the scene graph, with a stored
frame handle 7. -/
def twoControllerScene : XrSceneState :=
  { isActive := true
    pause := false
    position := { x := 0, y := 0, z := 0 }
    controlsPos := { x := 0, y := 0, z := 0 }
    bounds := initialBounds
    frame := some 7
    controllers := [{ mesh := 1, laser := some 2 }, { mesh := 3, laser := some 4 }]
    sceneChildren := [1, 2, 3, 4]
    rendererAutoClear := true
    sceneMatrixAutoUpdate := true }

/-! ## Frame loop -/

/-- One per-eye view of a viewer pose. `touchPos` is the value
`updateTouchPosition(viewMatrix)` returns for this view (the touch-to-view
mapper is an external collaborator). -/
structure View where
  touchPos : Vec3
deriving DecidableEq, Repr

/-- A viewer pose: the list of per-eye views. -/
structure Pose where
  views : List View
deriving DecidableEq, Repr

/-- Outcome of `xrFrame.getViewerPose(XR.refSpace)`: a (possibly null) pose, a
thrown `DOMException` (stale reference space), or some other thrown value. -/
inductive PoseFetch where
  | ok (pose : Option Pose)
  | throwDom
  | throwOther
deriving DecidableEq, Repr

/-- The `xrFrame` argument of the callback, reduced to what the embedded code
reads from it. -/
structure XRFrameData where
  poseFetch : PoseFetch
deriving DecidableEq, Repr

/-- The `XR.session` object, reduced to what the embedded code reads:
whether `session.mode === 'immersive-vr'`. -/
structure XRSessionData where
  immersive : Bool
deriving DecidableEq, Repr

/-- The ambient collaborators `_animationCallback` reads: the conventional
controls (`controls && controls.enabled`), the keyboard/mouse position
integrator `updatePosition()` (modelled from the spec: it advances and returns
the conventional rig's position), the clock delta, the XR session and frame,
the magic-window flag, and the handles the two frame schedulers hand back. -/
structure Env where
  controlsEnabled : Bool
  updatePos : Vec3
  delta : ℚ
  session : Option XRSessionData
  xrFrame : Option XRFrameData
  magicWindow : Bool
  windowRafHandle : Nat
  sessionRafHandle : Nat
deriving DecidableEq, Repr

/-- The observable operations one callback invocation performs, in order. -/
inductive Effect where
  | animate (delta : ℚ)
  | inputSample
  | clampControlsObject
  | renderScene
  | requestWindowFrame
  | requestSessionFrame
  | warnPoseError
  | handleInteractions
  | touchUpdate
  | clampPosition
  | cancelFrame (handle : Nat)
deriving DecidableEq, Repr

/-- A thrown value that escapes the callback. Only non-`DOMException` values
escape pose acquisition. -/
inductive JsErr where
  | other
deriving DecidableEq, Repr

/-- State and effect trace produced by one callback invocation. -/
structure CallbackResult where
  state : XrSceneState
  trace : List Effect
deriving DecidableEq, Repr

/-- The body of the per-eye loop (xr-scene.js lines 254-282): refresh the
tracked position from touch input when a non-immersive magic window is active,
clamp it with `_testBounds(this.position)`, update the camera from the view
matrices and render. -/
def viewStep (b : Bounds) (magicNonImmersive : Bool)
    (acc : Vec3 × List Effect) (v : View) : Vec3 × List Effect :=
  let p1 := if magicNonImmersive then v.touchPos else acc.1
  let tr1 := acc.2 ++ (if magicNonImmersive then [Effect.touchUpdate] else [])
  (testBounds b p1, tr1 ++ [Effect.clampPosition, Effect.renderScene])

/-- `XrScene._animationCallback` (xr-scene.js lines 195-289), as a function
from environment and state to an `Except`: `Except.error` models an exception
escaping the callback. The returned JS value is the stored `frame` field. -/
def animationCallback (env : Env) (s : XrSceneState) :
    Except JsErr CallbackResult :=
  if s.isActive then
    let tr0 : List Effect := if s.pause then [] else [Effect.animate env.delta]
    let (s2, tr2) :=
      if env.controlsEnabled then
        ({ s with position := env.updatePos
                  controlsPos := testBounds s.bounds env.updatePos },
         tr0 ++ [Effect.inputSample, Effect.clampControlsObject])
      else (s, tr0)
    match env.session with
    | none =>
        Except.ok
          { state := { s2 with rendererAutoClear := true
                               sceneMatrixAutoUpdate := true
                               frame := some env.windowRafHandle }
            trace := tr2 ++ [Effect.renderScene, Effect.requestWindowFrame] }
    | some sess =>
        match env.xrFrame with
        | none =>
            Except.ok
              { state := { s2 with frame := some env.sessionRafHandle }
                trace := tr2 ++ [Effect.requestSessionFrame] }
        | some xrf =>
            match xrf.poseFetch with
            | PoseFetch.throwOther => Except.error JsErr.other
            | PoseFetch.throwDom =>
                Except.ok
                  { state := { s2 with frame := none }
                    trace := tr2 ++ [Effect.warnPoseError] }
            | PoseFetch.ok none =>
                Except.ok { state := { s2 with frame := none }, trace := tr2 }
            | PoseFetch.ok (some pose) =>
                let magicNonImmersive := env.magicWindow && !sess.immersive
                let r := pose.views.foldl
                  (viewStep s2.bounds magicNonImmersive) (s2.position, [])
                Except.ok
                  { state := { s2 with position := r.1
                                       sceneMatrixAutoUpdate := false
                                       rendererAutoClear := false
                                       frame := some env.sessionRafHandle }
                    trace := tr2 ++ [Effect.handleInteractions] ++ r.2 ++
                             [Effect.requestSessionFrame] }
  else
    Except.ok { state := { s with frame := none }, trace := [] }

/-- `XrScene._restartAnimation` (xr-scene.js lines 178-186), the `xrAnimate`
handler: cancel a stored frame handle if any, remove all controllers, then
call `_animationCallback()` with no arguments (so `xrFrame` is absent). -/
def restartAnimation (env : Env) (s : XrSceneState) :
    Except JsErr CallbackResult :=
  let tr0 : List Effect :=
    match s.frame with
    | some h => [Effect.cancelFrame h]
    | none => []
  let s1 := removeAllControllers s
  match animationCallback { env with xrFrame := none } s1 with
  | Except.ok r => Except.ok { state := r.state, trace := tr0 ++ r.trace }
  | Except.error e => Except.error e

/-- Environment of a mid-XR-session `xrAnimate` signal: session present,
conventional controls disabled. -/
def envRestart : Env :=
  { controlsEnabled := false
    updatePos := { x := 0, y := 0, z := 0 }
    delta := 1
    session := some { immersive := true }
    xrFrame := some { poseFetch := PoseFetch.ok none }
    magicWindow := false
    windowRafHandle := 11
    sessionRafHandle := 12 }

/-- Environment of a conventional (no XR session) frame with keyboard/mouse
controls enabled and the input integrator reporting a position outside the
constructor bounds. -/
def envConventional : Env :=
  { controlsEnabled := true
    updatePos := { x := 200, y := 0, z := 0 }
    delta := 1
    session := none
    xrFrame := none
    magicWindow := false
    windowRafHandle := 11
    sessionRafHandle := 12 }

/-- Environment of an XR frame whose pose acquisition throws a
`DOMException` (stale reference space). -/
def envDomFail : Env :=
  { controlsEnabled := false
    updatePos := { x := 0, y := 0, z := 0 }
    delta := 1
    session := some { immersive := true }
    xrFrame := some { poseFetch := PoseFetch.throwDom }
    magicWindow := false
    windowRafHandle := 11
    sessionRafHandle := 12 }

/-! ## Router -/

/-- JS object property write `obj[k] = v` on an object represented as an
insertion-ordered association list: update the existing entry for `k` in
place, or append a fresh one. -/
def setKey {α : Type} : List (String × α) → String → α → List (String × α)
  | [], k, v => [(k, v)]
  | kv :: rest, k, v =>
      if kv.1 = k then (k, v) :: rest else kv :: setKey rest k v

/-- A scene's opaque `state` record: a JS object with string-valued fields. -/
def StateRec : Type := List (String × String)

instance : DecidableEq StateRec := by
  unfold StateRec; infer_instance

/-- `Object.assign(target, source)` (router.js line 46): write every field of
`source` onto `target`, in order. -/
def objAssign (target source : StateRec) : StateRec :=
  source.foldl (fun t kv => setKey t kv.1 kv.2) target

/-- The fields of a scene instance the router touches. `started` records that
`startAnimation()` was invoked on this instance. -/
structure SceneM where
  isActive : Bool
  stateRec : StateRec
  started : Bool
deriving DecidableEq

/-- The router's module-level state: the `currentScene` binding, the
`SavedStates` object (keyed by path strings, including the string "undefined"
that an absent `oldPath` argument coerces to), and
`window.location.pathname`. -/
structure RouterSt where
  currentScene : Option SceneM
  saved : List (String × StateRec)
  location : String
deriving DecidableEq

/-- The route table and scene constructors: whether `pathname in Routes`, and
the default `state` record a freshly constructed scene for a path carries. -/
structure RouterEnv where
  routeExists : String → Bool
  defaultState : String → StateRec

/-- JS property-key coercion of the `oldPath` argument: an absent argument is
`undefined`, and `SavedStates[undefined]` uses the key "undefined". -/
def keyOfPath : Option String → String
  | some p => p
  | none => "undefined"

/-- `navigateToScene(pathname, oldPath)` (router.js lines 30-51): deactivate
and save the current scene if any, keyed by `oldPath`; on a non-root path,
construct the scene for the path (falling back to the home route), merge any
previously saved state for `pathname` over its defaults with `Object.assign`,
and start its loop. On the root path only the welcome overlay is shown. -/
def navigateToScene (env : RouterEnv) (r : RouterSt) (pathname : String)
    (oldPath : Option String) : RouterSt :=
  let r1 :=
    match r.currentScene with
    | some sc =>
        { r with currentScene := some { sc with isActive := false }
                 saved := setKey r.saved (keyOfPath oldPath) sc.stateRec }
    | none => r
  if pathname = "/" then
    r1
  else
    let resolved := if env.routeExists pathname then pathname else "/home"
    let fresh : SceneM :=
      { isActive := true, stateRec := env.defaultState resolved, started := false }
    let fresh2 :=
      match r1.saved.lookup pathname with
      | some savedState =>
          { fresh with stateRec := objAssign fresh.stateRec savedState }
      | none => fresh
    { r1 with currentScene := some { fresh2 with started := true } }

/-- `navigate(newPath)` (router.js lines 57-61): record the outgoing
`window.location.pathname`, push the new path into history (updating the
location), then switch scenes. -/
def navigate (env : RouterEnv) (r : RouterSt) (newPath : String) : RouterSt :=
  let oldPath := r.location
  navigateToScene env { r with location := newPath } newPath (some oldPath)

/-- `window.onpopstate` (router.js lines 63-65): the browser has already moved
`window.location.pathname` to `poppedPath`; the handler calls
`navigateToScene(window.location.pathname)` with no `oldPath` argument. The
initial page-load call (router.js line 68) has the same shape. -/
def onpopstate (env : RouterEnv) (r : RouterSt) (poppedPath : String) :
    RouterSt :=
  navigateToScene env { r with location := poppedPath } poppedPath none

/-- A concrete route table: home and planets rooms, with home carrying two
default state fields. -/
def routerEnvW : RouterEnv :=
  { routeExists := fun p => p == "/home" || p == "/planets"
    defaultState := fun p =>
      if p == "/home" then [("color", "blue"), ("mode", "day")] else [] }

/-- A concrete active scene whose state has mutated away from the defaults. -/
def sceneW : SceneM :=
  { isActive := true, stateRec := [("color", "red")], started := true }

/-- A concrete router state sitting at `/home` with `sceneW` active. -/
def routerW : RouterSt :=
  { currentScene := some sceneW, saved := [], location := "/home" }

/-! ## Helper lemmas -/

lemma clampAxis_mem (p hi lo : ℚ) (h : lo ≤ hi) :
    lo ≤ clampAxis p hi lo ∧ clampAxis p hi lo ≤ hi := by
  unfold clampAxis
  split_ifs with h1 h2 <;> constructor <;> linarith

lemma clampAxis_of_mem (p hi lo : ℚ) (h1 : lo ≤ p) (h2 : p ≤ hi) :
    clampAxis p hi lo = p := by
  unfold clampAxis
  split_ifs with ha hb
  · linarith
  · linarith
  · rfl

lemma clampAxis_idem (p hi lo : ℚ) (h : lo ≤ hi) :
    clampAxis (clampAxis p hi lo) hi lo = clampAxis p hi lo := by
  have hm := clampAxis_mem p hi lo h
  exact clampAxis_of_mem _ hi lo hm.1 hm.2

lemma testBounds_inBounds (b : Bounds) (p : Vec3) (h : boundsValid b) :
    inBounds b (testBounds b p) := by
  obtain ⟨hx, hy, hz⟩ := h
  have mx := clampAxis_mem p.x b.one.x b.two.x hx
  have my := clampAxis_mem p.y b.one.y b.two.y hy
  have mz := clampAxis_mem p.z b.one.z b.two.z hz
  exact ⟨⟨mx.1, my.1, mz.1⟩, ⟨mx.2, my.2, mz.2⟩⟩

lemma removeAllLoop_step (s : XrSceneState) (i : Nat)
    (h : i < s.controllers.length) :
    removeAllLoop s i = removeAllLoop (removeController s i) (i + 1) := by
  rw [removeAllLoop]
  simp [h]

lemma removeAllLoop_done (s : XrSceneState) (i : Nat)
    (h : ¬ i < s.controllers.length) :
    removeAllLoop s i = s := by
  rw [removeAllLoop]
  simp [h]

lemma removeAllControllers_twoControllerScene :
    removeAllControllers twoControllerScene =
      { twoControllerScene with
          controllers := [{ mesh := 3, laser := some 4 }]
          sceneChildren := [3, 4] } := by
  rw [removeAllControllers,
    removeAllLoop_step _ _ (by decide),
    removeAllLoop_done _ _ (by decide)]
  decide

lemma lookup_cons_self {α : Type} (rest : List (String × α)) (k : String)
    (v : α) : ((k, v) :: rest).lookup k = some v := by
  simp [List.lookup]

lemma lookup_cons_ne {α : Type} (rest : List (String × α)) (kv : String × α)
    (k : String) (h : k ≠ kv.1) : (kv :: rest).lookup k = rest.lookup k := by
  have hb : (k == kv.1) = false := beq_eq_false_iff_ne.mpr h
  simp [List.lookup, hb]

lemma lookup_setKey_self {α : Type} (l : List (String × α)) (k : String)
    (v : α) : (setKey l k v).lookup k = some v := by
  induction l with
  | nil => simp [setKey, List.lookup]
  | cons kv rest ih =>
      by_cases h : kv.1 = k
      · simp [setKey, h, lookup_cons_self]
      · rw [setKey, if_neg h, lookup_cons_ne _ _ _ (Ne.symm h)]
        exact ih

lemma lookup_setKey_ne {α : Type} (l : List (String × α)) (k k2 : String)
    (v : α) (h : k2 ≠ k) : (setKey l k v).lookup k2 = l.lookup k2 := by
  induction l with
  | nil =>
      rw [setKey, lookup_cons_ne _ _ _ h]
  | cons kv rest ih =>
      by_cases hk : kv.1 = k
      · subst hk
        rw [setKey, if_pos rfl, lookup_cons_ne _ _ _ h,
          lookup_cons_ne _ _ _ (by simpa using h)]
      · rw [setKey, if_neg hk]
        by_cases h2 : k2 = kv.1
        · subst h2
          cases kv with
          | mk a b => simp [List.lookup]
        · rw [lookup_cons_ne _ _ _ h2, lookup_cons_ne _ _ _ h2]
          exact ih

lemma lookup_eq_none_of_not_mem_keys {α : Type} (l : List (String × α))
    (k : String) (h : k ∉ l.map Prod.fst) : l.lookup k = none := by
  induction l with
  | nil => rfl
  | cons kv rest ih =>
      simp only [List.map_cons, List.mem_cons, not_or] at h
      rw [lookup_cons_ne _ _ _ h.1]
      exact ih h.2

lemma lookup_objAssign (t s : StateRec) (k : String)
    (hs : (s.map Prod.fst).Nodup) :
    (objAssign t s).lookup k = ((s.lookup k).or (t.lookup k)) := by
  induction s generalizing t with
  | nil => simp [objAssign, List.lookup]
  | cons kv rest ih =>
      simp only [List.map_cons, List.nodup_cons] at hs
      have step : objAssign t (kv :: rest) = objAssign (setKey t kv.1 kv.2) rest := by
        simp [objAssign]
      rw [step, ih _ hs.2]
      by_cases h : k = kv.1
      · cases kv with
        | mk a b =>
            simp only at h hs
            subst h
            rw [lookup_eq_none_of_not_mem_keys rest k hs.1, lookup_setKey_self,
              lookup_cons_self]
            rfl
      · rw [lookup_cons_ne _ _ _ h, lookup_setKey_ne t kv.1 k kv.2 h]

lemma navigateToScene_saved (env : RouterEnv) (r : RouterSt)
    (pathname : String) (oldPath : Option String) (sc : SceneM)
    (hc : r.currentScene = some sc) :
    (navigateToScene env r pathname oldPath).saved =
      setKey r.saved (keyOfPath oldPath) sc.stateRec := by
  simp only [navigateToScene, hc]
  by_cases h : pathname = "/"
  · rw [if_pos h]
  · rw [if_neg h]

lemma navigateToScene_location (env : RouterEnv) (r : RouterSt)
    (pathname : String) (oldPath : Option String) :
    (navigateToScene env r pathname oldPath).location = r.location := by
  unfold navigateToScene
  cases hc : r.currentScene <;> by_cases h : pathname = "/" <;>
    simp [h]

lemma navigateToScene_isSome_nonroot (env : RouterEnv) (r : RouterSt)
    (pathname : String) (oldPath : Option String) (h : pathname ≠ "/") :
    ∃ m, (navigateToScene env r pathname oldPath).currentScene = some m := by
  unfold navigateToScene
  cases hc : r.currentScene <;> rw [if_neg h] <;> exact ⟨_, rfl⟩

lemma navigateToScene_currentScene_nonroot (env : RouterEnv) (r : RouterSt)
    (pathname : String) (oldPath : Option String) (sc : SceneM) (S : StateRec)
    (h : pathname ≠ "/") (hc : r.currentScene = some sc)
    (hl : (setKey r.saved (keyOfPath oldPath) sc.stateRec).lookup pathname =
      some S) :
    (navigateToScene env r pathname oldPath).currentScene =
      some { isActive := true
             stateRec := objAssign
               (env.defaultState
                 (if env.routeExists pathname then pathname else "/home")) S
             started := true } := by
  simp only [navigateToScene, hc]
  rw [if_neg h, hl]

/-! ## Claims -/

/-- C1: the claim says `_removeAllControllers` leaves the controller list
empty and no controller or laser meshes attached, for every starting length.
Evaluating the embedded loop on a scene with two controllers shows the code
violates this: the loop increments `i` against the shrinking live length, so
the second record (mesh 3, laser 4) survives in the list and in the scene
graph. -/
theorem c1_removeAllControllers_not_empty :
    (removeAllControllers twoControllerScene).controllers =
        [{ mesh := 3, laser := some 4 }] ∧
      (removeAllControllers twoControllerScene).sceneChildren = [3, 4] := by
  rw [removeAllControllers_twoControllerScene]
  exact ⟨rfl, rfl⟩

/-- C3: the claim says that after an `xrAnimate` signal the controller list is
empty and exactly one frame request is pending. On an active mid-XR-session
scene with two controllers the embedded `_restartAnimation` does cancel the
stored handle and issue exactly one session frame request, but a stale
controller record remains in the list, so the code violates the claim. -/
theorem c3_restart_leaves_stale_controller :
    restartAnimation envRestart twoControllerScene =
      Except.ok
        { state := { twoControllerScene with
                       controllers := [{ mesh := 3, laser := some 4 }]
                       sceneChildren := [3, 4]
                       frame := some 12 }
          trace := [Effect.cancelFrame 7, Effect.animate 1,
                    Effect.requestSessionFrame] } := by
  simp only [restartAnimation, removeAllControllers_twoControllerScene]
  rfl

/-- C5: a frame-callback invocation on an instance whose active flag is false
performs no effect at all (no animation, physics, input, or render operation),
schedules no further frame, and sets the stored frame handle to `null`. -/
theorem c5_inactive_callback_is_noop (env : Env) (s : XrSceneState)
    (h : s.isActive = false) :
    animationCallback env s =
      Except.ok { state := { s with frame := none }, trace := [] } := by
  simp [animationCallback, h]

/-- Witness for C5 at a concrete deactivated scene. -/
theorem c5_inactive_callback_is_noop_witness :
    ({ twoControllerScene with isActive := false } : XrSceneState).isActive
        = false ∧
      animationCallback envRestart { twoControllerScene with isActive := false }
        = Except.ok
            { state := { twoControllerScene with isActive := false, frame := none }
              trace := [] } :=
  ⟨rfl, c5_inactive_callback_is_noop envRestart
    { twoControllerScene with isActive := false } rfl⟩

/-- C8: the claim says `_setBounds` enforces `one ≥ two` componentwise for
every pair of argument vectors. It does not: passing an upper corner below the
lower corner is copied verbatim and the invariant fails. -/
theorem c8_setBounds_no_enforcement_counterexample :
    ¬ boundsValid
        (setBounds initialBounds { x := 0, y := 0, z := 0 }
          { x := 1, y := 1, z := 1 }) := by
  decide

/-- C8 amended: the constructor's bounds satisfy the invariant, while
`_setBounds` copies its arguments verbatim, so after the setter the invariant
holds exactly when the caller's arguments already satisfied it. -/
theorem c8_bounds_invariant_constructor_only :
    boundsValid initialBounds ∧
      ∀ b : Bounds, ∀ bound1 bound2 : Vec3,
        setBounds b bound1 bound2 = { one := bound1, two := bound2 } ∧
          (boundsValid (setBounds b bound1 bound2) ↔ vecLe bound2 bound1) := by
  refine ⟨by decide, fun b bound1 bound2 => ⟨rfl, Iff.rfl⟩⟩

/-- Witness for the amended C8: the setter applied to ordered corners yields a
valid box. -/
theorem c8_bounds_invariant_constructor_only_witness :
    boundsValid
      (setBounds initialBounds { x := 5, y := 5, z := 5 }
        { x := -5, y := -5, z := -5 }) :=
  (c8_bounds_invariant_constructor_only.2 initialBounds
      { x := 5, y := 5, z := 5 } { x := -5, y := -5, z := -5 }).2.mpr (by decide)

/-- C9: the bounds clamp `_testBounds` is idempotent on every position for
every box whose upper corner dominates its lower corner componentwise. -/
theorem c9_clamp_idempotent (b : Bounds) (p : Vec3) (h : boundsValid b) :
    testBounds b (testBounds b p) = testBounds b p := by
  obtain ⟨hx, hy, hz⟩ := h
  unfold testBounds
  simp only []
  rw [clampAxis_idem _ _ _ hx, clampAxis_idem _ _ _ hy, clampAxis_idem _ _ _ hz]

/-- Witness for C9 at the constructor bounds and an out-of-box position. -/
theorem c9_clamp_idempotent_witness :
    boundsValid initialBounds ∧
      testBounds initialBounds
          (testBounds initialBounds { x := 200, y := -300, z := 5 }) =
        testBounds initialBounds { x := 200, y := -300, z := 5 } :=
  ⟨by decide,
   c9_clamp_idempotent initialBounds { x := 200, y := -300, z := 5 } (by decide)⟩

/-- C4: the claim says that in a controls-enabled frame callback the scene's
`position` field is clamped against the bounds afterwards. It is not: the code
copies the unclamped integrator value into `this.position` and applies
`_testBounds` to `controls.getObject().position` instead, so with the
integrator reporting x = 200 against the 100-bound box the scene's position
field ends the callback outside the bounds. -/
theorem c4_scene_position_escapes_bounds_counterexample :
    animationCallback envConventional twoControllerScene =
        Except.ok
          { state := { twoControllerScene with
                         position := { x := 200, y := 0, z := 0 }
                         controlsPos := { x := 100, y := 0, z := 0 }
                         frame := some 11 }
            trace := [Effect.animate 1, Effect.inputSample,
                      Effect.clampControlsObject, Effect.renderScene,
                      Effect.requestWindowFrame] } ∧
      ¬ inBounds twoControllerScene.bounds { x := 200, y := 0, z := 0 } := by
  constructor
  · rfl
  · decide

/-- C4 amended: in a controls-enabled conventional frame the scene's
`position` field receives the integrator value unclamped, while the clamp is
applied to the controls rig's position, which does lie within the (valid)
bounds after the callback. -/
theorem c4_clamp_applies_to_controls_rig (env : Env) (s : XrSceneState)
    (hA : s.isActive = true) (hC : env.controlsEnabled = true)
    (hS : env.session = none) (hb : boundsValid s.bounds) :
    animationCallback env s =
        Except.ok
          { state := { s with position := env.updatePos
                              controlsPos := testBounds s.bounds env.updatePos
                              rendererAutoClear := true
                              sceneMatrixAutoUpdate := true
                              frame := some env.windowRafHandle }
            trace := (if s.pause then [] else [Effect.animate env.delta]) ++
                     [Effect.inputSample, Effect.clampControlsObject,
                      Effect.renderScene, Effect.requestWindowFrame] } ∧
      inBounds s.bounds (testBounds s.bounds env.updatePos) := by
  constructor
  · simp [animationCallback, hA, hC, hS]
  · exact testBounds_inBounds s.bounds env.updatePos hb

/-- Witness for the amended C4 at the concrete conventional environment. -/
theorem c4_clamp_applies_to_controls_rig_witness :
    animationCallback envConventional twoControllerScene =
        Except.ok
          { state := { twoControllerScene with
                         position := envConventional.updatePos
                         controlsPos := testBounds twoControllerScene.bounds
                           envConventional.updatePos
                         rendererAutoClear := true
                         sceneMatrixAutoUpdate := true
                         frame := some envConventional.windowRafHandle }
            trace := (if twoControllerScene.pause then []
                      else [Effect.animate envConventional.delta]) ++
                     [Effect.inputSample, Effect.clampControlsObject,
                      Effect.renderScene, Effect.requestWindowFrame] } ∧
      inBounds twoControllerScene.bounds
        (testBounds twoControllerScene.bounds envConventional.updatePos) :=
  c4_clamp_applies_to_controls_rig envConventional twoControllerScene
    rfl rfl rfl (by decide)

/-- C6: on an active instance the pause flag suppresses exactly the
user-animation hook: the unpaused run of the callback produces the same final
state (up to the pause flag itself) and the same effect trace with one leading
`animate` effect prepended; input sampling, clamping, rendering and frame
rescheduling are untouched. -/
theorem c6_pause_suppresses_only_animate (env : Env) (s : XrSceneState)
    (h : s.isActive = true) :
    animationCallback env { s with pause := false } =
      Except.map
        (fun r => { state := { r.state with pause := false }
                    trace := Effect.animate env.delta :: r.trace })
        (animationCallback env { s with pause := true }) := by
  unfold animationCallback
  cases env.session with
  | none =>
      cases hc : env.controlsEnabled <;> simp [h, Except.map]
  | some sess =>
      cases env.xrFrame with
      | none =>
          cases hc : env.controlsEnabled <;> simp [h, Except.map]
      | some xrf =>
          cases hp : xrf.poseFetch with
          | ok po =>
              cases po <;> cases hc : env.controlsEnabled <;>
                simp [h, hp, Except.map, viewStep]
          | throwDom =>
              cases hc : env.controlsEnabled <;> simp [h, hp, Except.map]
          | throwOther =>
              cases hc : env.controlsEnabled <;> simp [h, hp, Except.map]

/-- Witness for C6 at the concrete mid-session environment and scene. -/
theorem c6_pause_suppresses_only_animate_witness :
    twoControllerScene.isActive = true ∧
      animationCallback envRestart { twoControllerScene with pause := false } =
        Except.map
          (fun r => { state := { r.state with pause := false }
                      trace := Effect.animate envRestart.delta :: r.trace })
          (animationCallback envRestart { twoControllerScene with pause := true }) :=
  ⟨rfl, c6_pause_suppresses_only_animate envRestart twoControllerScene rfl⟩

/-- C7: the claim says the caught `DOMException` case still requests the next
frame so the loop continues. In the embedded code a caught pose failure falls
through to the final handle-clearing step: no frame request of either kind is
issued and the stored handle is cleared, so the loop halts. -/
theorem c7_no_pose_halts_loop_counterexample :
    animationCallback envDomFail twoControllerScene =
        Except.ok { state := { twoControllerScene with frame := none }
                    trace := [Effect.animate 1, Effect.warnPoseError] } ∧
      Effect.requestSessionFrame ∉ [Effect.animate (1 : ℚ), Effect.warnPoseError] ∧
      Effect.requestWindowFrame ∉ [Effect.animate (1 : ℚ), Effect.warnPoseError] := by
  refine ⟨rfl, by decide, by decide⟩

/-- C7 amended: during pose acquisition exactly the `DOMException` is caught:
it is logged and treated as no pose this frame, after which the callback
clears the stored frame handle and requests no further frame; any other
exception propagates to the caller. -/
theorem c7_dom_exception_caught_others_propagate (env : Env) (s : XrSceneState)
    (sess : XRSessionData) (xrf : XRFrameData) (hA : s.isActive = true)
    (hS : env.session = some sess) (hF : env.xrFrame = some xrf) :
    (xrf.poseFetch = PoseFetch.throwOther →
        animationCallback env s = Except.error JsErr.other) ∧
      (xrf.poseFetch = PoseFetch.throwDom →
        animationCallback env s =
          Except.ok
            { state := { s with
                position := if env.controlsEnabled then env.updatePos
                            else s.position
                controlsPos := if env.controlsEnabled then
                                 testBounds s.bounds env.updatePos
                               else s.controlsPos
                frame := none }
              trace := (if s.pause then [] else [Effect.animate env.delta]) ++
                       (if env.controlsEnabled then
                          [Effect.inputSample, Effect.clampControlsObject]
                        else []) ++
                       [Effect.warnPoseError] }) := by
  constructor <;> intro hp <;> cases hc : env.controlsEnabled <;>
    simp [animationCallback, hA, hS, hF, hp, hc]

/-- Witness for the amended C7 at the concrete stale-reference-space
environment. -/
theorem c7_dom_exception_caught_others_propagate_witness :
    (({ poseFetch := PoseFetch.throwDom } : XRFrameData).poseFetch =
          PoseFetch.throwOther →
        animationCallback envDomFail twoControllerScene =
          Except.error JsErr.other) ∧
      (({ poseFetch := PoseFetch.throwDom } : XRFrameData).poseFetch =
          PoseFetch.throwDom →
        animationCallback envDomFail twoControllerScene =
          Except.ok
            { state := { twoControllerScene with
                position := if envDomFail.controlsEnabled then
                              envDomFail.updatePos
                            else twoControllerScene.position
                controlsPos := if envDomFail.controlsEnabled then
                                 testBounds twoControllerScene.bounds
                                   envDomFail.updatePos
                               else twoControllerScene.controlsPos
                frame := none }
              trace := (if twoControllerScene.pause then []
                        else [Effect.animate envDomFail.delta]) ++
                       (if envDomFail.controlsEnabled then
                          [Effect.inputSample, Effect.clampControlsObject]
                        else []) ++
                       [Effect.warnPoseError] }) :=
  c7_dom_exception_caught_others_propagate envDomFail twoControllerScene
    { immersive := true } { poseFetch := PoseFetch.throwDom } rfl rfl rfl

/-- C2: navigating away from path P via `navigate` (which passes the outgoing
location as `oldPath`) and later back to P yields a scene whose state has, at
every key, the value saved at departure when it has one, and the freshly
constructed scene's default value otherwise — the saved record merged over the
defaults. -/
theorem c2_saved_state_merged_over_defaults (env : RouterEnv) (r : RouterSt)
    (sc : SceneM) (P Q : String) (hc : r.currentScene = some sc)
    (hloc : r.location = P) (hP : P ≠ "/") (hQ : Q ≠ "/") (hQP : Q ≠ P)
    (hnd : (sc.stateRec.map Prod.fst).Nodup) (k : String) :
    (match (navigate env (navigate env r Q) P).currentScene with
      | some sc2 => sc2.stateRec.lookup k
      | none => none) =
      ((sc.stateRec.lookup k).or
        ((env.defaultState
          (if env.routeExists P then P else "/home")).lookup k)) := by
  subst hloc
  obtain ⟨scMid, hMid⟩ :=
    navigateToScene_isSome_nonroot env { r with location := Q } Q
      (some r.location) hQ
  have hsaved : (navigate env r Q).saved =
      setKey r.saved r.location sc.stateRec :=
    navigateToScene_saved env { r with location := Q } Q (some r.location) sc hc
  have hlocA : (navigate env r Q).location = Q :=
    navigateToScene_location env { r with location := Q } Q (some r.location)
  have hl : (setKey (navigate env r Q).saved
        (keyOfPath (some (navigate env r Q).location))
        scMid.stateRec).lookup r.location = some sc.stateRec := by
    rw [hlocA, hsaved]
    show (setKey (setKey r.saved r.location sc.stateRec) Q
      scMid.stateRec).lookup r.location = some sc.stateRec
    rw [lookup_setKey_ne _ _ _ _ (Ne.symm hQP), lookup_setKey_self]
  have hcur := navigateToScene_currentScene_nonroot env
    { (navigate env r Q) with location := r.location } r.location
    (some (navigate env r Q).location) scMid sc.stateRec hP hMid hl
  show (match (navigateToScene env
      { (navigate env r Q) with location := r.location } r.location
      (some (navigate env r Q).location)).currentScene with
    | some sc2 => sc2.stateRec.lookup k
    | none => none) = _
  rw [hcur]
  exact lookup_objAssign _ _ k hnd

/-- Witness for C2: leave `/home` (state mutated to color = red) for
`/planets`, come back, and read the merged state: the mutated field wins and a
default field the saved record lacks survives. -/
theorem c2_saved_state_merged_over_defaults_witness :
    (match (navigate routerEnvW (navigate routerEnvW routerW "/planets")
        "/home").currentScene with
      | some sc2 => sc2.stateRec.lookup "color"
      | none => none) =
      ((sceneW.stateRec.lookup "color").or
        ((routerEnvW.defaultState
          (if routerEnvW.routeExists "/home" then "/home"
           else "/home")).lookup "color")) :=
  c2_saved_state_merged_over_defaults routerEnvW routerW sceneW "/home"
    "/planets" rfl rfl (by decide) (by decide) (by decide) (by decide) "color"

/-- C10: a history-pop (or initial-load) scene switch calls `navigateToScene`
with no outgoing path, so an active scene's state record is saved under the
single key "undefined": that key now maps to the departed scene's state, and
every other key of the saved-state table — in particular the departed path —
is unchanged, so the state is not retrievable under the departed path. -/
theorem c10_popstate_saves_under_undefined_key (env : RouterEnv)
    (r : RouterSt) (sc : SceneM) (T : String)
    (hc : r.currentScene = some sc) :
    ((onpopstate env r T).saved.lookup "undefined" = some sc.stateRec) ∧
      ∀ p, p ≠ "undefined" →
        (onpopstate env r T).saved.lookup p = r.saved.lookup p := by
  have hs : (onpopstate env r T).saved =
      setKey r.saved "undefined" sc.stateRec :=
    navigateToScene_saved env { r with location := T } T none sc hc
  constructor
  · rw [hs]
    exact lookup_setKey_self _ _ _
  · intro p hp
    rw [hs]
    exact lookup_setKey_ne _ _ _ _ hp

/-- Witness for C10: a back/forward pop away from `/home` stores the active
scene's state under "undefined" and leaves the entry for `/home` (the departed
path) unchanged. -/
theorem c10_popstate_saves_under_undefined_key_witness :
    (onpopstate routerEnvW routerW "/planets").saved.lookup "undefined" =
        some sceneW.stateRec ∧
      (onpopstate routerEnvW routerW "/planets").saved.lookup "/home" =
        routerW.saved.lookup "/home" :=
  ⟨(c10_popstate_saves_under_undefined_key routerEnvW routerW sceneW
      "/planets" rfl).1,
   (c10_popstate_saves_under_undefined_key routerEnvW routerW sceneW
      "/planets" rfl).2 "/home" (by decide)⟩

end ImmersiveWeb
